import Mathlib

/-!
Shallow embedding of the `ta-lib` wrapper crate (virtualritz/ta-lib-rs),
`src/ta-lib/src/lib.rs` and `src/ta-lib/src/macros.rs`.

The crate wraps the external TA-Lib C library.  The C indicator functions
themselves are outside the repository; each one is modelled here as an
abstract function from the marshalled call arguments to a record of what it
writes back (a return code, the two `i32` outputs `out_begin` / `out_size`,
and the contents of the output buffer cells).  The Rust wrapper logic around
each call is translated faithfully: assertions become a `panic` outcome,
`Vec::set_len` beyond the allocated capacity becomes an `ub` outcome, and the
`as` casts between `usize` (64-bit, as on the 64-bit targets the crate is
built for) and C `int` (`i32`) are modelled by explicit modular arithmetic on
`Nat` / `Int`.

The element type `f64` is never inspected by the wrapper (values are only
moved between buffers), so the embedding is parametric in the scalar type α.
-/

/-- Rust `usize as i32` (truncating cast, usize is 64-bit): keep the low
32 bits and reinterpret them as a signed 32-bit value. -/
def usizeToI32 (n : Nat) : Int :=
  let m : Nat := n % 2 ^ 32
  if m < 2 ^ 31 then (m : Int) else (m : Int) - 2 ^ 32

/-- Rust `i32 as usize` (sign-extending to 64 bits, then reinterpreted
unsigned): reduce modulo `2 ^ 64` into `[0, 2 ^ 64)`. -/
def i32ToUsize (s : Int) : Nat :=
  (s % 2 ^ 64).toNat

/-- Modelled from the spec: the TA-Lib C library's success return code.
`TA_RetCode` is a C enum whose first member `TA_SUCCESS` has value 0; the
vendored C sources of TA-Lib v0.4.0 are not under `src/`, only the bindgen
build script that re-exports the enum. -/
def TA_SUCCESS : Int := 0

/-- Modelled from the spec: the TA-Lib C header defines the integer
"use default" sentinel `TA_INTEGER_DEFAULT` as `INT_MIN`, i.e. `-2^31`;
the vendored C sources are not under `src/`. -/
def TA_INTEGER_DEFAULT : Int := -(2 ^ 31)

/-- The literal `i32::MIN` written in `bollinger_bands` (lib.rs line 163). -/
def i32MIN : Int := -(2 ^ 31)

/-- Modelled from the spec: the `Debug` rendering of the bindgen-generated
`RetCode` enum, as interpolated by `format!("...; error: \x7b:?\x7d", ret_code)`.
Variant names and values follow the TA-Lib v0.4.0 `TA_RetCode` enum (the
vendored C sources are not under `src/`). -/
def formatRetCode (rc : Int) : String :=
  if rc = 0 then "SUCCESS"
  else if rc = 1 then "LIB_NOT_INITIALIZE"
  else if rc = 2 then "BAD_PARAM"
  else if rc = 3 then "ALLOC_ERR"
  else if rc = 4 then "GROUP_NOT_FOUND"
  else if rc = 5 then "FUNC_NOT_FOUND"
  else if rc = 6 then "INVALID_HANDLE"
  else if rc = 7 then "INVALID_PARAM_HOLDER"
  else if rc = 8 then "INVALID_PARAM_HOLDER_TYPE"
  else if rc = 9 then "INVALID_PARAM_FUNCTION"
  else if rc = 10 then "INPUT_NOT_ALL_INITIALIZE"
  else if rc = 11 then "OUTPUT_NOT_ALL_INITIALIZE"
  else if rc = 12 then "OUT_OF_RANGE_START_INDEX"
  else if rc = 13 then "OUT_OF_RANGE_END_INDEX"
  else if rc = 14 then "INVALID_LIST_TYPE"
  else if rc = 15 then "BAD_OBJECT"
  else if rc = 16 then "NOT_SUPPORTED"
  else if rc = 5000 then "INTERNAL_ERROR"
  else "UNKNOWN_ERR"

/-- `pub struct Error(String)` from lib.rs. -/
structure Error where
  msg : String
  deriving DecidableEq, Repr

/-- Outcome of running a wrapper function: `panic` (an `assert!` failed),
`ub` (undefined behaviour: `set_len` past the allocated capacity), or the
value actually returned (`Ok`/`Err` as `Except`). -/
inductive RunResult (β : Type) where
  | panic : RunResult β
  | ub : RunResult β
  | done : Except Error β → RunResult β

/-- An uninitialised output buffer as produced by `Vec::with_capacity`:
only its capacity is observable before the C call fills it. -/
structure Buf (α : Type) where
  capacity : Nat
  deriving DecidableEq, Repr

/-- `Vec::with_capacity(n)` (for the purposes of this model the allocated
capacity is exactly the requested one). -/
def vecWithCapacity (α : Type) (n : Nat) : Buf α :=
  ⟨n⟩

/-- What an external single-output TA C function writes back: the return
code, the two `i32` outputs `*out_begin` and `*out_size`, and the contents
of the cells of the output buffer after the call. -/
structure CCall (α : Type) where
  retCode : Int
  outBegin : Int
  outSize : Int
  outBuf : Nat → α

/-- What the external `TA_BBANDS` writes back: as `CCall`, but with three
output buffers (upper, middle, lower band). -/
structure CCall3 (α : Type) where
  retCode : Int
  outBegin : Int
  outSize : Int
  outUpper : Nat → α
  outMiddle : Nat → α
  outLower : Nat → α

/-- Arguments marshalled for a high/low/close + period C call
(`TA_ADX`, `TA_ATR`, `TA_NATR`, `TA_MINUS_DI`, `TA_PLUS_DI`). -/
structure HlcpArgs (α : Type) where
  startIdx : Int
  endIdx : Int
  inHigh : List α
  inLow : List α
  inClose : List α
  optInTimePeriod : Int

/-- Arguments marshalled for a high/low/close C call (`TA_TRANGE`). -/
structure HlcArgs (α : Type) where
  startIdx : Int
  endIdx : Int
  inHigh : List α
  inLow : List α
  inClose : List α

/-- Arguments marshalled for a single-series + period C call
(`TA_EMA`, `TA_SMA`). -/
structure ValuesArgs (α : Type) where
  startIdx : Int
  endIdx : Int
  inReal : List α
  optInTimePeriod : Int

/-- Arguments marshalled for the `TA_BBANDS` C call. -/
structure BbandsArgs (α : Type) where
  startIdx : Int
  endIdx : Int
  inReal : List α
  optInTimePeriod : Int
  optInNbDevUp : α
  optInNbDevDn : α
  optInMAType : Int

/-- Arguments marshalled for the `TA_OBV` C call. -/
structure ObvArgs (α : Type) where
  startIdx : Int
  endIdx : Int
  inReal : List α
  inVolume : List α

/-- `if let Some(period) = period \x7b period as _ \x7d else \x7b ta::TA_INTEGER_DEFAULT \x7d`
(macros.rs lines 25–29 and 167–171). -/
def periodArg (period : Option Nat) : Int :=
  match period with
  | some p => usizeToI32 p
  | none => TA_INTEGER_DEFAULT

/-- The same marshalling in `bollinger_bands`, which spells the sentinel as
the literal `i32::MIN` (lib.rs lines 159–164). -/
def bbPeriodArg (period : Option Nat) : Int :=
  match period with
  | some p => usizeToI32 p
  | none => i32MIN

/-- The error message prefix used by the macro-generated functions. -/
def genericErrMsg : String := "Could not compute function; error: "

/-- The error message prefix used by `bollinger_bands` and
`on_balance_volume` (both say OBV). -/
def obvErrMsg : String := "Could not compute OBV; error: "

/-- The common single-output epilogue of every macro-generated wrapper and
of `on_balance_volume`: match on the return code; on `TA_SUCCESS`, run
`out.set_len(out_size as usize)` (undefined behaviour if that exceeds the
allocated capacity) and return the buffer contents together with
`out_begin as usize`; on any other code build the error string. -/
def marshalOne (α : Type) (out : Buf α) (msg : String) (r : CCall α) :
    RunResult (List α × Nat) :=
  if r.retCode = TA_SUCCESS then
    let n := i32ToUsize r.outSize
    if n ≤ out.capacity then
      .done (.ok ((List.range n).map r.outBuf, i32ToUsize r.outBegin))
    else
      .ub
  else
    .done (.error ⟨msg ++ formatRetCode r.retCode⟩)

/-- The three-output epilogue of `bollinger_bands` (lib.rs lines 175–192):
`set_len(out_size)` on each of the three buffers, then return them with
`out_begin as usize`, or build the (OBV-labelled) error string. -/
def marshalBB (α : Type) (outU outM outL : Buf α) (msg : String)
    (r : CCall3 α) : RunResult (List α × List α × List α × Nat) :=
  if r.retCode = TA_SUCCESS then
    let n := i32ToUsize r.outSize
    if n ≤ outU.capacity ∧ n ≤ outM.capacity ∧ n ≤ outL.capacity then
      .done (.ok ((List.range n).map r.outUpper,
        (List.range n).map r.outMiddle,
        (List.range n).map r.outLower,
        i32ToUsize r.outBegin))
    else
      .ub
  else
    .done (.error ⟨msg ++ formatRetCode r.retCode⟩)

/-- The argument marshalling of `define_high_low_close_period_fn`
(macros.rs lines 19–29): start index 0, end index `(close.len() - 1) as _`
(the subtraction is only reached with `close` non-empty, where Rust `usize`
subtraction agrees with `Nat` subtraction), the three input slices, and the
period-or-sentinel. -/
def hlcpArgs (α : Type) (high low close : List α) (period : Option Nat) :
    HlcpArgs α :=
  ⟨0, usizeToI32 (close.length - 1), high, low, close, periodArg period⟩

/-- The argument marshalling of `define_high_low_close_fn`
(macros.rs lines 95–100). -/
def hlcArgs (α : Type) (high low close : List α) : HlcArgs α :=
  ⟨0, usizeToI32 (close.length - 1), high, low, close⟩

/-- The argument marshalling of `define_values_period_fn`
(macros.rs lines 163–171). -/
def valuesArgs (α : Type) (input : List α) (period : Option Nat) :
    ValuesArgs α :=
  ⟨0, usizeToI32 (input.length - 1), input, periodArg period⟩

/-- The argument marshalling of `bollinger_bands` (lib.rs lines 155–167):
the sentinel for a missing period is the literal `i32::MIN`, missing
deviation factors default to `ta::REAL_DEFAULT` (an external C constant,
passed in here as the parameter `realDefault`), and a missing moving-average
type defaults to `ExponentialMovingAverage`, transmuted to its C enum
value. -/
def bbandsArgs (α : Type) (realDefault : α) (input : List α)
    (period : Option Nat) (up dn : Option α) (ma : Int) : BbandsArgs α :=
  ⟨0, usizeToI32 (input.length - 1), input, bbPeriodArg period,
    up.getD realDefault, dn.getD realDefault, ma⟩

/-- The argument marshalling of `on_balance_volume` (lib.rs lines 220–224). -/
def obvArgs (α : Type) (close volume : List α) : ObvArgs α :=
  ⟨0, usizeToI32 (close.length - 1), close, volume⟩

/-- `define_high_low_close_period_fn` (macros.rs lines 1–76), the shape of
`average_directional_movement_index` (ADX), `average_true_range` (ATR),
`normalized_average_true_range` (NATR), `negative_directional_indicator`
(MINUS_DI) and `positive_directional_indicator` (PLUS_DI).  The external C
function is the parameter `cfn`. -/
def define_high_low_close_period_fn (α : Type) (cfn : HlcpArgs α → CCall α)
    (high low close : List α) (period : Option Nat) :
    RunResult (List α × Nat) :=
  if 0 < close.length ∧ close.length ≤ high.length ∧
      close.length ≤ low.length then
    marshalOne α (vecWithCapacity α close.length) genericErrMsg
      (cfn (hlcpArgs α high low close period))
  else
    .panic

/-- `define_high_low_close_fn` (macros.rs lines 78–147), the shape of
`true_range` (TRANGE). -/
def define_high_low_close_fn (α : Type) (cfn : HlcArgs α → CCall α)
    (high low close : List α) : RunResult (List α × Nat) :=
  if 0 < close.length ∧ close.length ≤ high.length ∧
      close.length ≤ low.length then
    marshalOne α (vecWithCapacity α close.length) genericErrMsg
      (cfn (hlcArgs α high low close))
  else
    .panic

/-- `define_values_period_fn` (macros.rs lines 149–211), the shape of
`exponential_moving_average` (EMA) and `simple_moving_average` (SMA). -/
def define_values_period_fn (α : Type) (cfn : ValuesArgs α → CCall α)
    (input : List α) (period : Option Nat) : RunResult (List α × Nat) :=
  if 0 < input.length then
    marshalOne α (vecWithCapacity α input.length) genericErrMsg
      (cfn (valuesArgs α input period))
  else
    .panic

/-- The `MovingAverageType` enum of lib.rs (lines 122–133); its `repr(C)`
discriminants are the `TA_MAType` C enum values. -/
inductive MovingAverageType where
  | SimpleMovingAverage
  | ExponentialMovingAverage
  | WeightedMovingAverage
  | DoubleExponentialMovingAverage
  | TripleExponentialMovingAverage
  | TriangularMovingAverage
  | KaufmanAdaptiveMovingAverage
  | MesaAdaptiveMovingAverage
  | TripleGeneralizedDoubleExponentialMovingAverage
  deriving DecidableEq, Repr

/-- Modelled from the spec: the numeric values of the C `TA_MAType` enum
(SMA = 0, EMA = 1, ..., T3 = 8), which the Rust enum discriminants copy and
`transmute` forwards; the vendored C sources are not under `src/`. -/
def maTypeValue : MovingAverageType → Int
  | .SimpleMovingAverage => 0
  | .ExponentialMovingAverage => 1
  | .WeightedMovingAverage => 2
  | .DoubleExponentialMovingAverage => 3
  | .TripleExponentialMovingAverage => 4
  | .TriangularMovingAverage => 5
  | .KaufmanAdaptiveMovingAverage => 6
  | .MesaAdaptiveMovingAverage => 7
  | .TripleGeneralizedDoubleExponentialMovingAverage => 8

/-- `bollinger_bands` (lib.rs lines 139–194).  `realDefault` stands for the
external C constant `ta::REAL_DEFAULT` used for omitted deviation factors. -/
def bollinger_bands (α : Type) (cfn : BbandsArgs α → CCall3 α)
    (realDefault : α) (input : List α) (period : Option Nat)
    (numStdDeviationsUp numStdDeviationsDown : Option α)
    (movingAverageType : Option MovingAverageType) :
    RunResult (List α × List α × List α × Nat) :=
  if 0 < input.length then
    marshalBB α (vecWithCapacity α input.length)
      (vecWithCapacity α input.length) (vecWithCapacity α input.length)
      obvErrMsg
      (cfn (bbandsArgs α realDefault input period numStdDeviationsUp
        numStdDeviationsDown
        (maTypeValue (movingAverageType.getD .ExponentialMovingAverage))))
  else
    .panic

/-- `on_balance_volume` (lib.rs lines 211–241). -/
def on_balance_volume (α : Type) (cfn : ObvArgs α → CCall α)
    (close volume : List α) : RunResult (List α × Nat) :=
  if 0 < close.length ∧ close.length ≤ volume.length then
    marshalOne α (vecWithCapacity α close.length) obvErrMsg
      (cfn (obvArgs α close volume))
  else
    .panic

/-- `average_directional_movement_index` = the high/low/close + period
template applied to `TA_ADX`. -/
def average_directional_movement_index (α : Type)
    (ADX : HlcpArgs α → CCall α) :=
  define_high_low_close_period_fn α ADX

/-- `average_true_range` = the template applied to `TA_ATR`. -/
def average_true_range (α : Type) (ATR : HlcpArgs α → CCall α) :=
  define_high_low_close_period_fn α ATR

/-- `normalized_average_true_range` = the template applied to `TA_NATR`. -/
def normalized_average_true_range (α : Type) (NATR : HlcpArgs α → CCall α) :=
  define_high_low_close_period_fn α NATR

/-- `negative_directional_indicator` = the template applied to
`TA_MINUS_DI`. -/
def negative_directional_indicator (α : Type)
    (MINUS_DI : HlcpArgs α → CCall α) :=
  define_high_low_close_period_fn α MINUS_DI

/-- `positive_directional_indicator` = the template applied to
`TA_PLUS_DI`. -/
def positive_directional_indicator (α : Type)
    (PLUS_DI : HlcpArgs α → CCall α) :=
  define_high_low_close_period_fn α PLUS_DI

/-- `true_range` = the high/low/close template applied to `TA_TRANGE`. -/
def true_range (α : Type) (TRANGE : HlcArgs α → CCall α) :=
  define_high_low_close_fn α TRANGE

/-- `exponential_moving_average` = the single-series template applied to
`TA_EMA`. -/
def exponential_moving_average (α : Type) (EMA : ValuesArgs α → CCall α) :=
  define_values_period_fn α EMA

/-- `simple_moving_average` = the single-series template applied to
`TA_SMA`. -/
def simple_moving_average (α : Type) (SMA : ValuesArgs α → CCall α) :=
  define_values_period_fn α SMA

/-- Modelled from the spec: the common marshalling template the spec
describes ("allocate buffer sized to input length, call into the library
with a start/end index range, interpret a start-offset and a count,
truncate, map status to success/error"), instantiated at the three-output
BBANDS call and using the macro template's `TA_INTEGER_DEFAULT` sentinel
for a missing period.  This is the spec-side definition `bollinger_bands`
is compared against. -/
def bbandsTemplate (α : Type) (cfn : BbandsArgs α → CCall3 α)
    (realDefault : α) (input : List α) (period : Option Nat)
    (up dn : Option α) (ma : Option MovingAverageType) :
    RunResult (List α × List α × List α × Nat) :=
  if 0 < input.length then
    marshalBB α (vecWithCapacity α input.length)
      (vecWithCapacity α input.length) (vecWithCapacity α input.length)
      obvErrMsg
      (cfn ⟨0, usizeToI32 (input.length - 1), input, periodArg period,
        up.getD realDefault, dn.getD realDefault,
        maTypeValue (ma.getD .ExponentialMovingAverage)⟩)
  else
    .panic

/-- A model C implementation that succeeds and reports zero output
elements, used to exercise the theorems on concrete inputs. -/
def okCallInt : CCall Int :=
  ⟨0, 0, 0, fun _ => 0⟩

/-- A model C implementation that succeeds with one output element at
offset 0. -/
def okOneCallInt : CCall Int :=
  ⟨0, 0, 1, fun _ => 7⟩

/-- A model C implementation that fails with `TA_BAD_PARAM` (code 2). -/
def badCallInt : CCall Int :=
  ⟨2, 0, 0, fun _ => 0⟩

/-- A succeeding three-output model C implementation. -/
def okCall3Int : CCall3 Int :=
  ⟨0, 0, 1, fun _ => 1, fun _ => 2, fun _ => 3⟩

/-- A failing three-output model C implementation (code 2). -/
def badCall3Int : CCall3 Int :=
  ⟨2, 0, 0, fun _ => 0, fun _ => 0, fun _ => 0⟩

theorem marshalOne_eq (α : Type) (out : Buf α) (msg : String) (r : CCall α) :
    marshalOne α out msg r =
      if r.retCode = TA_SUCCESS then
        if i32ToUsize r.outSize ≤ out.capacity then
          .done (.ok ((List.range (i32ToUsize r.outSize)).map r.outBuf,
            i32ToUsize r.outBegin))
        else
          .ub
      else
        .done (.error ⟨msg ++ formatRetCode r.retCode⟩) :=
  rfl

theorem marshalBB_eq (α : Type) (outU outM outL : Buf α) (msg : String)
    (r : CCall3 α) :
    marshalBB α outU outM outL msg r =
      if r.retCode = TA_SUCCESS then
        if i32ToUsize r.outSize ≤ outU.capacity ∧
            i32ToUsize r.outSize ≤ outM.capacity ∧
            i32ToUsize r.outSize ≤ outL.capacity then
          .done (.ok ((List.range (i32ToUsize r.outSize)).map r.outUpper,
            (List.range (i32ToUsize r.outSize)).map r.outMiddle,
            (List.range (i32ToUsize r.outSize)).map r.outLower,
            i32ToUsize r.outBegin))
        else
          .ub
      else
        .done (.error ⟨msg ++ formatRetCode r.retCode⟩) :=
  rfl

theorem usizeToI32_of_lt (n : Nat) (h : n < 2 ^ 31) : usizeToI32 n = (n : Int) := by
  unfold usizeToI32
  have h32 : n < 2 ^ 32 := lt_trans h (by norm_num)
  rw [Nat.mod_eq_of_lt h32, if_pos h]

theorem usizeToI32_pred (n : Nat) (h0 : 0 < n) (h1 : n ≤ 2 ^ 31) :
    usizeToI32 (n - 1) = (n : Int) - 1 := by
  have h : n - 1 < 2 ^ 31 := lt_of_lt_of_le (Nat.sub_lt h0 one_pos) h1
  rw [usizeToI32_of_lt (n - 1) h]
  omega

theorem i32ToUsize_cast (s : Int) (h0 : 0 ≤ s) (h1 : s < 2 ^ 64) :
    (i32ToUsize s : Int) = s := by
  unfold i32ToUsize
  rw [Int.emod_eq_of_lt h0 h1, Int.toNat_of_nonneg h0]

theorem i32ToUsize_le (s : Int) (c : Nat) (h0 : 0 ≤ s) (h1 : s < 2 ^ 64)
    (h2 : s ≤ (c : Int)) : i32ToUsize s ≤ c := by
  unfold i32ToUsize
  rw [Int.emod_eq_of_lt h0 h1]
  exact Int.toNat_le.mpr h2

theorem marshalOne_ne_panic (α : Type) (out : Buf α) (msg : String)
    (r : CCall α) : marshalOne α out msg r ≠ RunResult.panic := by
  rw [marshalOne_eq]
  split
  · split
    · intro h
      exact RunResult.noConfusion h
    · intro h
      exact RunResult.noConfusion h
  · intro h
    exact RunResult.noConfusion h

theorem marshalBB_ne_panic (α : Type) (outU outM outL : Buf α) (msg : String)
    (r : CCall3 α) : marshalBB α outU outM outL msg r ≠ RunResult.panic := by
  rw [marshalBB_eq]
  split
  · split
    · intro h
      exact RunResult.noConfusion h
    · intro h
      exact RunResult.noConfusion h
  · intro h
    exact RunResult.noConfusion h

theorem marshalOne_ne_ub (α : Type) (out : Buf α) (msg : String) (r : CCall α)
    (hb : r.retCode = TA_SUCCESS → i32ToUsize r.outSize ≤ out.capacity) :
    marshalOne α out msg r ≠ RunResult.ub := by
  rw [marshalOne_eq]
  split
  · rename_i hrc
    rw [if_pos (hb hrc)]
    intro h
    exact RunResult.noConfusion h
  · intro h
    exact RunResult.noConfusion h

theorem marshalBB_ne_ub (α : Type) (outU outM outL : Buf α) (msg : String)
    (r : CCall3 α)
    (hb : r.retCode = TA_SUCCESS →
      i32ToUsize r.outSize ≤ outU.capacity ∧
      i32ToUsize r.outSize ≤ outM.capacity ∧
      i32ToUsize r.outSize ≤ outL.capacity) :
    marshalBB α outU outM outL msg r ≠ RunResult.ub := by
  rw [marshalBB_eq]
  split
  · rename_i hrc
    rw [if_pos (hb hrc)]
    intro h
    exact RunResult.noConfusion h
  · intro h
    exact RunResult.noConfusion h

theorem marshalOne_ok_iff (α : Type) (out : Buf α) (msg : String) (r : CCall α)
    (hb : i32ToUsize r.outSize ≤ out.capacity) :
    (∃ v, marshalOne α out msg r = .done (.ok v)) ↔ r.retCode = TA_SUCCESS := by
  rw [marshalOne_eq]
  constructor
  · rintro ⟨v, hv⟩
    by_contra hrc
    rw [if_neg hrc] at hv
    exact Except.noConfusion (RunResult.done.inj hv)
  · intro hrc
    rw [if_pos hrc, if_pos hb]
    exact ⟨_, rfl⟩

theorem marshalBB_ok_iff (α : Type) (outU outM outL : Buf α) (msg : String)
    (r : CCall3 α)
    (hb : i32ToUsize r.outSize ≤ outU.capacity ∧
      i32ToUsize r.outSize ≤ outM.capacity ∧
      i32ToUsize r.outSize ≤ outL.capacity) :
    (∃ v, marshalBB α outU outM outL msg r = .done (.ok v)) ↔
      r.retCode = TA_SUCCESS := by
  rw [marshalBB_eq]
  constructor
  · rintro ⟨v, hv⟩
    by_contra hrc
    rw [if_neg hrc] at hv
    exact Except.noConfusion (RunResult.done.inj hv)
  · intro hrc
    rw [if_pos hrc, if_pos hb]
    exact ⟨_, rfl⟩

theorem marshalOne_err (α : Type) (out : Buf α) (msg : String) (r : CCall α)
    (hrc : r.retCode ≠ TA_SUCCESS) :
    marshalOne α out msg r = .done (.error ⟨msg ++ formatRetCode r.retCode⟩) := by
  rw [marshalOne_eq, if_neg hrc]

theorem marshalBB_err (α : Type) (outU outM outL : Buf α) (msg : String)
    (r : CCall3 α) (hrc : r.retCode ≠ TA_SUCCESS) :
    marshalBB α outU outM outL msg r =
      .done (.error ⟨msg ++ formatRetCode r.retCode⟩) := by
  rw [marshalBB_eq, if_neg hrc]

theorem marshalOne_ok_elim (α : Type) (out : Buf α) (msg : String)
    (r : CCall α) (v : List α) (b : Nat)
    (h : marshalOne α out msg r = .done (.ok (v, b))) :
    v = (List.range (i32ToUsize r.outSize)).map r.outBuf ∧
      b = i32ToUsize r.outBegin := by
  rw [marshalOne_eq] at h
  split at h
  · split at h
    · have h3 := Except.ok.inj (RunResult.done.inj h)
      simp only [Prod.mk.injEq] at h3
      exact ⟨h3.1.symm, h3.2.symm⟩
    · exact absurd h (fun hh => RunResult.noConfusion hh)
  · exact absurd h (fun hh =>
      Except.noConfusion (RunResult.done.inj hh))

theorem marshalBB_ok_elim (α : Type) (outU outM outL : Buf α) (msg : String)
    (r : CCall3 α) (u m l : List α) (b : Nat)
    (h : marshalBB α outU outM outL msg r = .done (.ok (u, m, l, b))) :
    u = (List.range (i32ToUsize r.outSize)).map r.outUpper ∧
      m = (List.range (i32ToUsize r.outSize)).map r.outMiddle ∧
      l = (List.range (i32ToUsize r.outSize)).map r.outLower ∧
      b = i32ToUsize r.outBegin := by
  rw [marshalBB_eq] at h
  split at h
  · split at h
    · have h3 := Except.ok.inj (RunResult.done.inj h)
      simp only [Prod.mk.injEq] at h3
      exact ⟨h3.1.symm, h3.2.1.symm, h3.2.2.1.symm, h3.2.2.2.symm⟩
    · exact absurd h (fun hh => RunResult.noConfusion hh)
  · exact absurd h (fun hh =>
      Except.noConfusion (RunResult.done.inj hh))

/-- Claim C1: for every wrapper function (the macro-generated indicator
functions, `bollinger_bands`, and `on_balance_volume`) and every input
satisfying its assertions, the function returns `Ok` if and only if the
underlying C library call returns the `SUCCESS` return code; for every
other return code it returns `Err`.  (The `Ok` direction assumes the C
call behaves as documented, i.e. the reported `out_size` fits the
allocated buffer: otherwise the `set_len` is undefined behaviour and the
function returns nothing at all.) -/
theorem claim_C1_ok_iff_success :
    (∀ (α : Type) (cfn : HlcpArgs α → CCall α) (high low close : List α)
        (period : Option Nat),
      0 < close.length → close.length ≤ high.length →
      close.length ≤ low.length →
      i32ToUsize (cfn (hlcpArgs α high low close period)).outSize ≤
        close.length →
      ((∃ v, define_high_low_close_period_fn α cfn high low close period =
          .done (.ok v)) ↔
        (cfn (hlcpArgs α high low close period)).retCode = TA_SUCCESS) ∧
      ((cfn (hlcpArgs α high low close period)).retCode ≠ TA_SUCCESS →
        define_high_low_close_period_fn α cfn high low close period =
          .done (.error ⟨genericErrMsg ++
            formatRetCode (cfn (hlcpArgs α high low close period)).retCode⟩))) ∧
    (∀ (α : Type) (cfn : HlcArgs α → CCall α) (high low close : List α),
      0 < close.length → close.length ≤ high.length →
      close.length ≤ low.length →
      i32ToUsize (cfn (hlcArgs α high low close)).outSize ≤ close.length →
      ((∃ v, define_high_low_close_fn α cfn high low close = .done (.ok v)) ↔
        (cfn (hlcArgs α high low close)).retCode = TA_SUCCESS) ∧
      ((cfn (hlcArgs α high low close)).retCode ≠ TA_SUCCESS →
        define_high_low_close_fn α cfn high low close =
          .done (.error ⟨genericErrMsg ++
            formatRetCode (cfn (hlcArgs α high low close)).retCode⟩))) ∧
    (∀ (α : Type) (cfn : ValuesArgs α → CCall α) (input : List α)
        (period : Option Nat),
      0 < input.length →
      i32ToUsize (cfn (valuesArgs α input period)).outSize ≤ input.length →
      ((∃ v, define_values_period_fn α cfn input period = .done (.ok v)) ↔
        (cfn (valuesArgs α input period)).retCode = TA_SUCCESS) ∧
      ((cfn (valuesArgs α input period)).retCode ≠ TA_SUCCESS →
        define_values_period_fn α cfn input period =
          .done (.error ⟨genericErrMsg ++
            formatRetCode (cfn (valuesArgs α input period)).retCode⟩))) ∧
    (∀ (α : Type) (cfn : BbandsArgs α → CCall3 α) (realDefault : α)
        (input : List α) (period : Option Nat) (up dn : Option α)
        (ma : Option MovingAverageType),
      0 < input.length →
      i32ToUsize (cfn (bbandsArgs α realDefault input period up dn
        (maTypeValue (ma.getD .ExponentialMovingAverage)))).outSize ≤
        input.length →
      ((∃ v, bollinger_bands α cfn realDefault input period up dn ma =
          .done (.ok v)) ↔
        (cfn (bbandsArgs α realDefault input period up dn
          (maTypeValue (ma.getD .ExponentialMovingAverage)))).retCode =
          TA_SUCCESS) ∧
      ((cfn (bbandsArgs α realDefault input period up dn
          (maTypeValue (ma.getD .ExponentialMovingAverage)))).retCode ≠
          TA_SUCCESS →
        bollinger_bands α cfn realDefault input period up dn ma =
          .done (.error ⟨obvErrMsg ++
            formatRetCode (cfn (bbandsArgs α realDefault input period up dn
              (maTypeValue (ma.getD .ExponentialMovingAverage)))).retCode⟩))) ∧
    (∀ (α : Type) (cfn : ObvArgs α → CCall α) (close volume : List α),
      0 < close.length → close.length ≤ volume.length →
      i32ToUsize (cfn (obvArgs α close volume)).outSize ≤ close.length →
      ((∃ v, on_balance_volume α cfn close volume = .done (.ok v)) ↔
        (cfn (obvArgs α close volume)).retCode = TA_SUCCESS) ∧
      ((cfn (obvArgs α close volume)).retCode ≠ TA_SUCCESS →
        on_balance_volume α cfn close volume =
          .done (.error ⟨obvErrMsg ++
            formatRetCode (cfn (obvArgs α close volume)).retCode⟩))) := by
  refine ⟨?_, ?_, ?_, ?_, ?_⟩
  · intro α cfn high low close period h1 h2 h3 hb
    unfold define_high_low_close_period_fn
    rw [if_pos ⟨h1, h2, h3⟩]
    exact ⟨marshalOne_ok_iff α _ _ _ hb, fun hrc => marshalOne_err α _ _ _ hrc⟩
  · intro α cfn high low close h1 h2 h3 hb
    unfold define_high_low_close_fn
    rw [if_pos ⟨h1, h2, h3⟩]
    exact ⟨marshalOne_ok_iff α _ _ _ hb, fun hrc => marshalOne_err α _ _ _ hrc⟩
  · intro α cfn input period h1 hb
    unfold define_values_period_fn
    rw [if_pos h1]
    exact ⟨marshalOne_ok_iff α _ _ _ hb, fun hrc => marshalOne_err α _ _ _ hrc⟩
  · intro α cfn realDefault input period up dn ma h1 hb
    unfold bollinger_bands
    rw [if_pos h1]
    exact ⟨marshalBB_ok_iff α _ _ _ _ _ ⟨hb, hb, hb⟩,
      fun hrc => marshalBB_err α _ _ _ _ _ hrc⟩
  · intro α cfn close volume h1 h2 hb
    unfold on_balance_volume
    rw [if_pos ⟨h1, h2⟩]
    exact ⟨marshalOne_ok_iff α _ _ _ hb, fun hrc => marshalOne_err α _ _ _ hrc⟩

/-- Witness for C1: the high/low/close + period wrapper at the one-element
input `[1]` with a succeeding model C implementation returns `Ok`. -/
theorem claim_C1_witness :
    (∃ v, define_high_low_close_period_fn Int (fun _ => okCallInt)
        [1] [1] [1] none = .done (.ok v)) ↔
      okCallInt.retCode = TA_SUCCESS :=
  (claim_C1_ok_iff_success.1 Int (fun _ => okCallInt) [1] [1] [1] none
    (by decide) (by decide) (by decide) (by decide)).1

theorem i32ToUsize_cast31 (s : Int) (h0 : 0 ≤ s) (h1 : s < 2 ^ 31) :
    (i32ToUsize s : Int) = s :=
  i32ToUsize_cast s h0 (lt_trans h1 (by norm_num))

theorem range_map_length (α : Type) (n : Nat) (f : Nat → α) :
    ((List.range n).map f).length = n := by
  rw [List.length_map, List.length_range]

/-- Claim C2: for every wrapper function, when the underlying C call
succeeds, the returned vector of values has length exactly equal to the
element count (`out_size`) reported by the C library, and the returned
`usize` index equals the start-offset (`out_begin`) reported by the C
library (both under the hypothesis that the reported `i32` values are
non-negative, since they are converted by an `as usize` cast). -/
theorem claim_C2_out_size_begin :
    (∀ (α : Type) (cfn : HlcpArgs α → CCall α) (high low close : List α)
        (period : Option Nat) (v : List α) (b : Nat),
      0 ≤ (cfn (hlcpArgs α high low close period)).outSize →
      (cfn (hlcpArgs α high low close period)).outSize < 2 ^ 31 →
      0 ≤ (cfn (hlcpArgs α high low close period)).outBegin →
      (cfn (hlcpArgs α high low close period)).outBegin < 2 ^ 31 →
      define_high_low_close_period_fn α cfn high low close period =
        .done (.ok (v, b)) →
      (v.length : Int) = (cfn (hlcpArgs α high low close period)).outSize ∧
        (b : Int) = (cfn (hlcpArgs α high low close period)).outBegin) ∧
    (∀ (α : Type) (cfn : HlcArgs α → CCall α) (high low close : List α)
        (v : List α) (b : Nat),
      0 ≤ (cfn (hlcArgs α high low close)).outSize →
      (cfn (hlcArgs α high low close)).outSize < 2 ^ 31 →
      0 ≤ (cfn (hlcArgs α high low close)).outBegin →
      (cfn (hlcArgs α high low close)).outBegin < 2 ^ 31 →
      define_high_low_close_fn α cfn high low close = .done (.ok (v, b)) →
      (v.length : Int) = (cfn (hlcArgs α high low close)).outSize ∧
        (b : Int) = (cfn (hlcArgs α high low close)).outBegin) ∧
    (∀ (α : Type) (cfn : ValuesArgs α → CCall α) (input : List α)
        (period : Option Nat) (v : List α) (b : Nat),
      0 ≤ (cfn (valuesArgs α input period)).outSize →
      (cfn (valuesArgs α input period)).outSize < 2 ^ 31 →
      0 ≤ (cfn (valuesArgs α input period)).outBegin →
      (cfn (valuesArgs α input period)).outBegin < 2 ^ 31 →
      define_values_period_fn α cfn input period = .done (.ok (v, b)) →
      (v.length : Int) = (cfn (valuesArgs α input period)).outSize ∧
        (b : Int) = (cfn (valuesArgs α input period)).outBegin) ∧
    (∀ (α : Type) (cfn : BbandsArgs α → CCall3 α) (realDefault : α)
        (input : List α) (period : Option Nat) (up dn : Option α)
        (ma : Option MovingAverageType) (u m l : List α) (b : Nat),
      0 ≤ (cfn (bbandsArgs α realDefault input period up dn
        (maTypeValue (ma.getD .ExponentialMovingAverage)))).outSize →
      (cfn (bbandsArgs α realDefault input period up dn
        (maTypeValue (ma.getD .ExponentialMovingAverage)))).outSize < 2 ^ 31 →
      0 ≤ (cfn (bbandsArgs α realDefault input period up dn
        (maTypeValue (ma.getD .ExponentialMovingAverage)))).outBegin →
      (cfn (bbandsArgs α realDefault input period up dn
        (maTypeValue (ma.getD .ExponentialMovingAverage)))).outBegin < 2 ^ 31 →
      bollinger_bands α cfn realDefault input period up dn ma =
        .done (.ok (u, m, l, b)) →
      (u.length : Int) = (cfn (bbandsArgs α realDefault input period up dn
          (maTypeValue (ma.getD .ExponentialMovingAverage)))).outSize ∧
        (m.length : Int) = (cfn (bbandsArgs α realDefault input period up dn
          (maTypeValue (ma.getD .ExponentialMovingAverage)))).outSize ∧
        (l.length : Int) = (cfn (bbandsArgs α realDefault input period up dn
          (maTypeValue (ma.getD .ExponentialMovingAverage)))).outSize ∧
        (b : Int) = (cfn (bbandsArgs α realDefault input period up dn
          (maTypeValue (ma.getD .ExponentialMovingAverage)))).outBegin) ∧
    (∀ (α : Type) (cfn : ObvArgs α → CCall α) (close volume : List α)
        (v : List α) (b : Nat),
      0 ≤ (cfn (obvArgs α close volume)).outSize →
      (cfn (obvArgs α close volume)).outSize < 2 ^ 31 →
      0 ≤ (cfn (obvArgs α close volume)).outBegin →
      (cfn (obvArgs α close volume)).outBegin < 2 ^ 31 →
      on_balance_volume α cfn close volume = .done (.ok (v, b)) →
      (v.length : Int) = (cfn (obvArgs α close volume)).outSize ∧
        (b : Int) = (cfn (obvArgs α close volume)).outBegin) := by
  refine ⟨?_, ?_, ?_, ?_, ?_⟩
  · intro α cfn high low close period v b hs0 hs1 hb0 hb1 h
    unfold define_high_low_close_period_fn at h
    split at h
    · obtain ⟨hv, hb⟩ := marshalOne_ok_elim α _ _ _ _ _ h
      subst hv
      subst hb
      rw [range_map_length]
      exact ⟨i32ToUsize_cast31 _ hs0 hs1, i32ToUsize_cast31 _ hb0 hb1⟩
    · exact absurd h (fun hh => RunResult.noConfusion hh)
  · intro α cfn high low close v b hs0 hs1 hb0 hb1 h
    unfold define_high_low_close_fn at h
    split at h
    · obtain ⟨hv, hb⟩ := marshalOne_ok_elim α _ _ _ _ _ h
      subst hv
      subst hb
      rw [range_map_length]
      exact ⟨i32ToUsize_cast31 _ hs0 hs1, i32ToUsize_cast31 _ hb0 hb1⟩
    · exact absurd h (fun hh => RunResult.noConfusion hh)
  · intro α cfn input period v b hs0 hs1 hb0 hb1 h
    unfold define_values_period_fn at h
    split at h
    · obtain ⟨hv, hb⟩ := marshalOne_ok_elim α _ _ _ _ _ h
      subst hv
      subst hb
      rw [range_map_length]
      exact ⟨i32ToUsize_cast31 _ hs0 hs1, i32ToUsize_cast31 _ hb0 hb1⟩
    · exact absurd h (fun hh => RunResult.noConfusion hh)
  · intro α cfn realDefault input period up dn ma u m l b hs0 hs1 hb0 hb1 h
    unfold bollinger_bands at h
    split at h
    · obtain ⟨hu, hm, hl, hb⟩ := marshalBB_ok_elim α _ _ _ _ _ _ _ _ _ h
      subst hu
      subst hm
      subst hl
      subst hb
      rw [range_map_length, range_map_length, range_map_length]
      exact ⟨i32ToUsize_cast31 _ hs0 hs1, i32ToUsize_cast31 _ hs0 hs1,
        i32ToUsize_cast31 _ hs0 hs1, i32ToUsize_cast31 _ hb0 hb1⟩
    · exact absurd h (fun hh => RunResult.noConfusion hh)
  · intro α cfn close volume v b hs0 hs1 hb0 hb1 h
    unfold on_balance_volume at h
    split at h
    · obtain ⟨hv, hb⟩ := marshalOne_ok_elim α _ _ _ _ _ h
      subst hv
      subst hb
      rw [range_map_length]
      exact ⟨i32ToUsize_cast31 _ hs0 hs1, i32ToUsize_cast31 _ hb0 hb1⟩
    · exact absurd h (fun hh => RunResult.noConfusion hh)

/-- Witness for C2: with a model C implementation reporting one output
element at offset 0 on the singleton input, the returned vector has
length `out_size = 1` and the returned index is `out_begin = 0`. -/
theorem claim_C2_witness :
    ((([(7 : Int)] : List Int).length : Int) = okOneCallInt.outSize ∧
      ((0 : Nat) : Int) = okOneCallInt.outBegin) :=
  claim_C2_out_size_begin.1 Int (fun _ => okOneCallInt) [5] [5] [5] none
    [7] 0 (by decide) (by decide) (by decide) (by decide) rfl

/-- Claim C3: every wrapper function is memory-safe: under the hypothesis
that on `SUCCESS` the C library reports a non-negative `out_size` (a valid
`i32`) no greater than the number of input elements, the `set_len`
truncation never exceeds the allocated capacity of any output buffer, so
no call ends in the undefined-behaviour outcome. -/
theorem claim_C3_memory_safe :
    (∀ (α : Type) (cfn : HlcpArgs α → CCall α) (high low close : List α)
        (period : Option Nat),
      ((cfn (hlcpArgs α high low close period)).retCode = TA_SUCCESS →
        0 ≤ (cfn (hlcpArgs α high low close period)).outSize ∧
        (cfn (hlcpArgs α high low close period)).outSize ≤ (close.length : Int) ∧
        (cfn (hlcpArgs α high low close period)).outSize < 2 ^ 31) →
      define_high_low_close_period_fn α cfn high low close period ≠
        RunResult.ub) ∧
    (∀ (α : Type) (cfn : HlcArgs α → CCall α) (high low close : List α),
      ((cfn (hlcArgs α high low close)).retCode = TA_SUCCESS →
        0 ≤ (cfn (hlcArgs α high low close)).outSize ∧
        (cfn (hlcArgs α high low close)).outSize ≤ (close.length : Int) ∧
        (cfn (hlcArgs α high low close)).outSize < 2 ^ 31) →
      define_high_low_close_fn α cfn high low close ≠ RunResult.ub) ∧
    (∀ (α : Type) (cfn : ValuesArgs α → CCall α) (input : List α)
        (period : Option Nat),
      ((cfn (valuesArgs α input period)).retCode = TA_SUCCESS →
        0 ≤ (cfn (valuesArgs α input period)).outSize ∧
        (cfn (valuesArgs α input period)).outSize ≤ (input.length : Int) ∧
        (cfn (valuesArgs α input period)).outSize < 2 ^ 31) →
      define_values_period_fn α cfn input period ≠ RunResult.ub) ∧
    (∀ (α : Type) (cfn : BbandsArgs α → CCall3 α) (realDefault : α)
        (input : List α) (period : Option Nat) (up dn : Option α)
        (ma : Option MovingAverageType),
      ((cfn (bbandsArgs α realDefault input period up dn
          (maTypeValue (ma.getD .ExponentialMovingAverage)))).retCode =
          TA_SUCCESS →
        0 ≤ (cfn (bbandsArgs α realDefault input period up dn
          (maTypeValue (ma.getD .ExponentialMovingAverage)))).outSize ∧
        (cfn (bbandsArgs α realDefault input period up dn
          (maTypeValue (ma.getD .ExponentialMovingAverage)))).outSize ≤
          (input.length : Int) ∧
        (cfn (bbandsArgs α realDefault input period up dn
          (maTypeValue (ma.getD .ExponentialMovingAverage)))).outSize <
          2 ^ 31) →
      bollinger_bands α cfn realDefault input period up dn ma ≠
        RunResult.ub) ∧
    (∀ (α : Type) (cfn : ObvArgs α → CCall α) (close volume : List α),
      ((cfn (obvArgs α close volume)).retCode = TA_SUCCESS →
        0 ≤ (cfn (obvArgs α close volume)).outSize ∧
        (cfn (obvArgs α close volume)).outSize ≤ (close.length : Int) ∧
        (cfn (obvArgs α close volume)).outSize < 2 ^ 31) →
      on_balance_volume α cfn close volume ≠ RunResult.ub) := by
  refine ⟨?_, ?_, ?_, ?_, ?_⟩
  · intro α cfn high low close period hyp
    unfold define_high_low_close_period_fn
    split
    · exact marshalOne_ne_ub α _ _ _ (fun hrc =>
        i32ToUsize_le _ _ (hyp hrc).1
          (lt_trans (hyp hrc).2.2 (by norm_num)) (hyp hrc).2.1)
    · intro h
      exact RunResult.noConfusion h
  · intro α cfn high low close hyp
    unfold define_high_low_close_fn
    split
    · exact marshalOne_ne_ub α _ _ _ (fun hrc =>
        i32ToUsize_le _ _ (hyp hrc).1
          (lt_trans (hyp hrc).2.2 (by norm_num)) (hyp hrc).2.1)
    · intro h
      exact RunResult.noConfusion h
  · intro α cfn input period hyp
    unfold define_values_period_fn
    split
    · exact marshalOne_ne_ub α _ _ _ (fun hrc =>
        i32ToUsize_le _ _ (hyp hrc).1
          (lt_trans (hyp hrc).2.2 (by norm_num)) (hyp hrc).2.1)
    · intro h
      exact RunResult.noConfusion h
  · intro α cfn realDefault input period up dn ma hyp
    unfold bollinger_bands
    split
    · exact marshalBB_ne_ub α _ _ _ _ _ (fun hrc =>
        ⟨i32ToUsize_le _ _ (hyp hrc).1
          (lt_trans (hyp hrc).2.2 (by norm_num)) (hyp hrc).2.1,
          i32ToUsize_le _ _ (hyp hrc).1
            (lt_trans (hyp hrc).2.2 (by norm_num)) (hyp hrc).2.1,
          i32ToUsize_le _ _ (hyp hrc).1
            (lt_trans (hyp hrc).2.2 (by norm_num)) (hyp hrc).2.1⟩)
    · intro h
      exact RunResult.noConfusion h
  · intro α cfn close volume hyp
    unfold on_balance_volume
    split
    · exact marshalOne_ne_ub α _ _ _ (fun hrc =>
        i32ToUsize_le _ _ (hyp hrc).1
          (lt_trans (hyp hrc).2.2 (by norm_num)) (hyp hrc).2.1)
    · intro h
      exact RunResult.noConfusion h

/-- Witness for C3: on the singleton input with the zero-output succeeding
model C implementation, the wrapper does not hit undefined behaviour. -/
theorem claim_C3_witness :
    define_high_low_close_period_fn Int (fun _ => okCallInt) [1] [1] [1]
      none ≠ RunResult.ub :=
  claim_C3_memory_safe.1 Int (fun _ => okCallInt) [1] [1] [1] none
    (fun _ => by refine ⟨by decide, by decide, by decide⟩)

/-- Claim C4: every indicator function follows one identical marshalling
shape, and in particular the hand-written `bollinger_bands` is equivalent
to the spec's template (`bbandsTemplate`), including passing the same
integer-default sentinel: its literal `i32::MIN` equals
`TA_INTEGER_DEFAULT`, so its period marshalling coincides with the macro
template's. -/
theorem claim_C4_shape_equivalence :
    i32MIN = TA_INTEGER_DEFAULT ∧
    (∀ period : Option Nat, bbPeriodArg period = periodArg period) ∧
    (∀ (α : Type) (cfn : BbandsArgs α → CCall3 α) (realDefault : α)
        (input : List α) (period : Option Nat) (up dn : Option α)
        (ma : Option MovingAverageType),
      bollinger_bands α cfn realDefault input period up dn ma =
        bbandsTemplate α cfn realDefault input period up dn ma) := by
  refine ⟨rfl, ?_, ?_⟩
  · intro period
    cases period <;> rfl
  · intro α cfn realDefault input period up dn ma
    unfold bollinger_bands bbandsTemplate bbandsArgs
    cases period <;> rfl

/-- Claim C5 counterexample: on a slice of length `2 ^ 31 + 1` the end
index passed to the C call is `(close.len() - 1) as i32 = -2 ^ 31`, not
the slice length minus 1 (the claim as stated fails: the `as` cast
truncates). -/
theorem claim_C5_counterexample :
    (hlcpArgs Int (List.replicate (2 ^ 31 + 1) 0)
        (List.replicate (2 ^ 31 + 1) 0) (List.replicate (2 ^ 31 + 1) 0)
        none).endIdx ≠
      ((List.replicate (2 ^ 31 + 1) (0 : Int)).length : Int) - 1 := by
  simp only [hlcpArgs, List.length_replicate]
  decide

/-- Claim C5 (amended): for every wrapper function the underlying C
library function is called with start index 0 and with end index
`(len - 1) as i32`, which equals the length of the (primary) input slice
minus 1 whenever that length is at most `2 ^ 31` (in particular on all
inputs a realistic process can hold). -/
theorem claim_C5_full_range :
    (∀ (α : Type) (high low close : List α) (period : Option Nat),
      0 < close.length → close.length ≤ 2 ^ 31 →
      (hlcpArgs α high low close period).startIdx = 0 ∧
        (hlcpArgs α high low close period).endIdx = (close.length : Int) - 1) ∧
    (∀ (α : Type) (high low close : List α),
      0 < close.length → close.length ≤ 2 ^ 31 →
      (hlcArgs α high low close).startIdx = 0 ∧
        (hlcArgs α high low close).endIdx = (close.length : Int) - 1) ∧
    (∀ (α : Type) (input : List α) (period : Option Nat),
      0 < input.length → input.length ≤ 2 ^ 31 →
      (valuesArgs α input period).startIdx = 0 ∧
        (valuesArgs α input period).endIdx = (input.length : Int) - 1) ∧
    (∀ (α : Type) (realDefault : α) (input : List α) (period : Option Nat)
        (up dn : Option α) (ma : Int),
      0 < input.length → input.length ≤ 2 ^ 31 →
      (bbandsArgs α realDefault input period up dn ma).startIdx = 0 ∧
        (bbandsArgs α realDefault input period up dn ma).endIdx =
          (input.length : Int) - 1) ∧
    (∀ (α : Type) (close volume : List α),
      0 < close.length → close.length ≤ 2 ^ 31 →
      (obvArgs α close volume).startIdx = 0 ∧
        (obvArgs α close volume).endIdx = (close.length : Int) - 1) := by
  refine ⟨?_, ?_, ?_, ?_, ?_⟩
  · intro α high low close period h0 h1
    exact ⟨rfl, usizeToI32_pred close.length h0 h1⟩
  · intro α high low close h0 h1
    exact ⟨rfl, usizeToI32_pred close.length h0 h1⟩
  · intro α input period h0 h1
    exact ⟨rfl, usizeToI32_pred input.length h0 h1⟩
  · intro α realDefault input period up dn ma h0 h1
    exact ⟨rfl, usizeToI32_pred input.length h0 h1⟩
  · intro α close volume h0 h1
    exact ⟨rfl, usizeToI32_pred close.length h0 h1⟩

/-- Witness for C5 (amended): on the singleton input the marshalled call
range is `0 ..= 0`. -/
theorem claim_C5_witness :
    (hlcpArgs Int [1] [1] [1] none).startIdx = 0 ∧
      (hlcpArgs Int [1] [1] [1] none).endIdx =
        (([(1 : Int)] : List Int).length : Int) - 1 :=
  claim_C5_full_range.1 Int [1] [1] [1] none (by decide) (by decide)

/-- Claim C6: for every wrapper function, each output buffer is
pre-allocated with capacity exactly equal to the length of the input slice
(`close` for the high/low/close functions and `on_balance_volume`, `input`
for the single-series functions and `bollinger_bands`) before the C call:
`vecWithCapacity` yields exactly the requested capacity and each wrapper,
once its assertions pass, runs the epilogue on buffers allocated with the
primary input's length. -/
theorem claim_C6_buffer_capacity :
    (∀ (α : Type) (n : Nat), (vecWithCapacity α n).capacity = n) ∧
    (∀ (α : Type) (cfn : HlcpArgs α → CCall α) (high low close : List α)
        (period : Option Nat),
      0 < close.length → close.length ≤ high.length →
      close.length ≤ low.length →
      define_high_low_close_period_fn α cfn high low close period =
        marshalOne α (vecWithCapacity α close.length) genericErrMsg
          (cfn (hlcpArgs α high low close period))) ∧
    (∀ (α : Type) (cfn : HlcArgs α → CCall α) (high low close : List α),
      0 < close.length → close.length ≤ high.length →
      close.length ≤ low.length →
      define_high_low_close_fn α cfn high low close =
        marshalOne α (vecWithCapacity α close.length) genericErrMsg
          (cfn (hlcArgs α high low close))) ∧
    (∀ (α : Type) (cfn : ValuesArgs α → CCall α) (input : List α)
        (period : Option Nat),
      0 < input.length →
      define_values_period_fn α cfn input period =
        marshalOne α (vecWithCapacity α input.length) genericErrMsg
          (cfn (valuesArgs α input period))) ∧
    (∀ (α : Type) (cfn : BbandsArgs α → CCall3 α) (realDefault : α)
        (input : List α) (period : Option Nat) (up dn : Option α)
        (ma : Option MovingAverageType),
      0 < input.length →
      bollinger_bands α cfn realDefault input period up dn ma =
        marshalBB α (vecWithCapacity α input.length)
          (vecWithCapacity α input.length) (vecWithCapacity α input.length)
          obvErrMsg
          (cfn (bbandsArgs α realDefault input period up dn
            (maTypeValue (ma.getD .ExponentialMovingAverage))))) ∧
    (∀ (α : Type) (cfn : ObvArgs α → CCall α) (close volume : List α),
      0 < close.length → close.length ≤ volume.length →
      on_balance_volume α cfn close volume =
        marshalOne α (vecWithCapacity α close.length) obvErrMsg
          (cfn (obvArgs α close volume))) := by
  refine ⟨fun α n => rfl, ?_, ?_, ?_, ?_, ?_⟩
  · intro α cfn high low close period h1 h2 h3
    unfold define_high_low_close_period_fn
    rw [if_pos ⟨h1, h2, h3⟩]
  · intro α cfn high low close h1 h2 h3
    unfold define_high_low_close_fn
    rw [if_pos ⟨h1, h2, h3⟩]
  · intro α cfn input period h1
    unfold define_values_period_fn
    rw [if_pos h1]
  · intro α cfn realDefault input period up dn ma h1
    unfold bollinger_bands
    rw [if_pos h1]
  · intro α cfn close volume h1 h2
    unfold on_balance_volume
    rw [if_pos ⟨h1, h2⟩]

/-- Witness for C6: the singleton-input wrapper runs the epilogue on a
buffer of capacity 1 allocated by `vecWithCapacity`. -/
theorem claim_C6_witness :
    define_high_low_close_period_fn Int (fun _ => okCallInt) [1] [1] [1]
        none =
      marshalOne Int (vecWithCapacity Int ([(1 : Int)] : List Int).length)
        genericErrMsg
        ((fun _ => okCallInt) (hlcpArgs Int [1] [1] [1] none)) :=
  claim_C6_buffer_capacity.2.1 Int (fun _ => okCallInt) [1] [1] [1] none
    (by decide) (by decide) (by decide)

/-- Claim C7: for every wrapper function taking an `Option`-valued period
parameter — the macro-generated period shapes and `bollinger_bands`, whose
`i32::MIN` literal is that same sentinel — `None` makes the C
integer-default sentinel (`TA_INTEGER_DEFAULT`) the period argument and
`Some p` makes `p` itself (cast to the C integer type) the period
argument; analogously,
`bollinger_bands` passes the real-default sentinel (`ta::REAL_DEFAULT`,
the `realDefault` parameter of the model) for omitted deviation
parameters. -/
theorem claim_C7_option_defaults :
    periodArg none = TA_INTEGER_DEFAULT ∧
    (∀ p : Nat, periodArg (some p) = usizeToI32 p) ∧
    bbPeriodArg none = TA_INTEGER_DEFAULT ∧
    (∀ p : Nat, bbPeriodArg (some p) = usizeToI32 p) ∧
    (∀ (α : Type) (high low close : List α) (period : Option Nat),
      (hlcpArgs α high low close period).optInTimePeriod = periodArg period) ∧
    (∀ (α : Type) (input : List α) (period : Option Nat),
      (valuesArgs α input period).optInTimePeriod = periodArg period) ∧
    (∀ (α : Type) (realDefault : α) (input : List α) (period : Option Nat)
        (up dn : Option α) (ma : Int),
      (bbandsArgs α realDefault input period up dn ma).optInTimePeriod =
        bbPeriodArg period) ∧
    (∀ (α : Type) (realDefault : α) (input : List α) (up dn : Option α)
        (ma : Int),
      (bbandsArgs α realDefault input none up dn ma).optInTimePeriod =
        TA_INTEGER_DEFAULT) ∧
    (∀ (α : Type) (realDefault : α) (input : List α) (p : Nat)
        (up dn : Option α) (ma : Int),
      (bbandsArgs α realDefault input (some p) up dn ma).optInTimePeriod =
        usizeToI32 p) ∧
    (∀ (α : Type) (realDefault : α) (input : List α) (period : Option Nat)
        (up dn : Option α) (ma : Int),
      (bbandsArgs α realDefault input period up dn ma).optInNbDevUp =
        up.getD realDefault ∧
      (bbandsArgs α realDefault input period up dn ma).optInNbDevDn =
        dn.getD realDefault) ∧
    (∀ (α : Type) (realDefault : α) (input : List α) (period : Option Nat)
        (ma : Int),
      (bbandsArgs α realDefault input period none none ma).optInNbDevUp =
        realDefault ∧
      (bbandsArgs α realDefault input period none none ma).optInNbDevDn =
        realDefault) :=
  ⟨rfl, fun _ => rfl, rfl, fun _ => rfl, fun _ _ _ _ _ => rfl,
    fun _ _ _ => rfl, fun _ _ _ _ _ _ _ => rfl, fun _ _ _ _ _ _ => rfl,
    fun _ _ _ _ _ _ _ => rfl, fun _ _ _ _ _ _ _ => ⟨rfl, rfl⟩,
    fun _ _ _ _ _ => ⟨rfl, rfl⟩⟩

/-- Claim C8: every public wrapper function panics (via `assert!`) exactly
when its primary input slice is empty or (for the multi-series wrappers) a
companion slice is shorter than the primary one; these assertions are the
only preconditions, and any input satisfying them reaches the C call
(the wrapper then runs the marshalling epilogue on the C call's result). -/
theorem claim_C8_assertions :
    (∀ (α : Type) (cfn : HlcpArgs α → CCall α) (high low close : List α)
        (period : Option Nat),
      (define_high_low_close_period_fn α cfn high low close period =
          RunResult.panic ↔
        ¬(0 < close.length ∧ close.length ≤ high.length ∧
          close.length ≤ low.length)) ∧
      (0 < close.length ∧ close.length ≤ high.length ∧
          close.length ≤ low.length →
        define_high_low_close_period_fn α cfn high low close period =
          marshalOne α (vecWithCapacity α close.length) genericErrMsg
            (cfn (hlcpArgs α high low close period)))) ∧
    (∀ (α : Type) (cfn : HlcArgs α → CCall α) (high low close : List α),
      (define_high_low_close_fn α cfn high low close = RunResult.panic ↔
        ¬(0 < close.length ∧ close.length ≤ high.length ∧
          close.length ≤ low.length)) ∧
      (0 < close.length ∧ close.length ≤ high.length ∧
          close.length ≤ low.length →
        define_high_low_close_fn α cfn high low close =
          marshalOne α (vecWithCapacity α close.length) genericErrMsg
            (cfn (hlcArgs α high low close)))) ∧
    (∀ (α : Type) (cfn : ValuesArgs α → CCall α) (input : List α)
        (period : Option Nat),
      (define_values_period_fn α cfn input period = RunResult.panic ↔
        ¬0 < input.length) ∧
      (0 < input.length →
        define_values_period_fn α cfn input period =
          marshalOne α (vecWithCapacity α input.length) genericErrMsg
            (cfn (valuesArgs α input period)))) ∧
    (∀ (α : Type) (cfn : BbandsArgs α → CCall3 α) (realDefault : α)
        (input : List α) (period : Option Nat) (up dn : Option α)
        (ma : Option MovingAverageType),
      (bollinger_bands α cfn realDefault input period up dn ma =
          RunResult.panic ↔ ¬0 < input.length) ∧
      (0 < input.length →
        bollinger_bands α cfn realDefault input period up dn ma =
          marshalBB α (vecWithCapacity α input.length)
            (vecWithCapacity α input.length)
            (vecWithCapacity α input.length) obvErrMsg
            (cfn (bbandsArgs α realDefault input period up dn
              (maTypeValue (ma.getD .ExponentialMovingAverage)))))) ∧
    (∀ (α : Type) (cfn : ObvArgs α → CCall α) (close volume : List α),
      (on_balance_volume α cfn close volume = RunResult.panic ↔
        ¬(0 < close.length ∧ close.length ≤ volume.length)) ∧
      (0 < close.length ∧ close.length ≤ volume.length →
        on_balance_volume α cfn close volume =
          marshalOne α (vecWithCapacity α close.length) obvErrMsg
            (cfn (obvArgs α close volume)))) := by
  refine ⟨?_, ?_, ?_, ?_, ?_⟩
  · intro α cfn high low close period
    unfold define_high_low_close_period_fn
    split
    · rename_i hA
      exact ⟨⟨fun h => absurd h (marshalOne_ne_panic α _ _ _),
        fun hn => absurd hA hn⟩, fun _ => rfl⟩
    · rename_i hA
      exact ⟨⟨fun _ => hA, fun _ => rfl⟩, fun h2 => absurd h2 hA⟩
  · intro α cfn high low close
    unfold define_high_low_close_fn
    split
    · rename_i hA
      exact ⟨⟨fun h => absurd h (marshalOne_ne_panic α _ _ _),
        fun hn => absurd hA hn⟩, fun _ => rfl⟩
    · rename_i hA
      exact ⟨⟨fun _ => hA, fun _ => rfl⟩, fun h2 => absurd h2 hA⟩
  · intro α cfn input period
    unfold define_values_period_fn
    split
    · rename_i hA
      exact ⟨⟨fun h => absurd h (marshalOne_ne_panic α _ _ _),
        fun hn => absurd hA hn⟩, fun _ => rfl⟩
    · rename_i hA
      exact ⟨⟨fun _ => hA, fun _ => rfl⟩, fun h2 => absurd h2 hA⟩
  · intro α cfn realDefault input period up dn ma
    unfold bollinger_bands
    split
    · rename_i hA
      exact ⟨⟨fun h => absurd h (marshalBB_ne_panic α _ _ _ _ _),
        fun hn => absurd hA hn⟩, fun _ => rfl⟩
    · rename_i hA
      exact ⟨⟨fun _ => hA, fun _ => rfl⟩, fun h2 => absurd h2 hA⟩
  · intro α cfn close volume
    unfold on_balance_volume
    split
    · rename_i hA
      exact ⟨⟨fun h => absurd h (marshalOne_ne_panic α _ _ _),
        fun hn => absurd hA hn⟩, fun _ => rfl⟩
    · rename_i hA
      exact ⟨⟨fun _ => hA, fun _ => rfl⟩, fun h2 => absurd h2 hA⟩

/-- Witness for C8: on the empty primary slice the wrapper panics, as the
assertion-characterisation says. -/
theorem claim_C8_witness :
    define_high_low_close_period_fn Int (fun _ => okCallInt)
        ([] : List Int) [] [] none = RunResult.panic :=
  (claim_C8_assertions.1 Int (fun _ => okCallInt) [] [] [] none).1.mpr
    (by decide)

/-- Claim C9: whenever `bollinger_bands` returns `Ok`, the three returned
vectors (upper, middle and lower band) all have exactly the same length,
each being set from the single `out_size` value reported by the C
library. -/
theorem claim_C9_band_lengths :
    ∀ (α : Type) (cfn : BbandsArgs α → CCall3 α) (realDefault : α)
      (input : List α) (period : Option Nat) (up dn : Option α)
      (ma : Option MovingAverageType) (u m l : List α) (b : Nat),
      bollinger_bands α cfn realDefault input period up dn ma =
        .done (.ok (u, m, l, b)) →
      u.length = m.length ∧ m.length = l.length ∧
        u.length = i32ToUsize (cfn (bbandsArgs α realDefault input period
          up dn (maTypeValue (ma.getD .ExponentialMovingAverage)))).outSize := by
  intro α cfn realDefault input period up dn ma u m l b h
  unfold bollinger_bands at h
  split at h
  · obtain ⟨hu, hm, hl, _⟩ := marshalBB_ok_elim α _ _ _ _ _ _ _ _ _ h
    subst hu
    subst hm
    subst hl
    rw [range_map_length, range_map_length, range_map_length]
    exact ⟨rfl, rfl, rfl⟩
  · exact absurd h (fun hh => RunResult.noConfusion hh)

/-- Witness for C9: a succeeding model C implementation with one output
element yields three bands of equal length 1. -/
theorem claim_C9_witness :
    ([(1 : Int)] : List Int).length = ([(2 : Int)] : List Int).length ∧
      ([(2 : Int)] : List Int).length = ([(3 : Int)] : List Int).length ∧
      ([(1 : Int)] : List Int).length = i32ToUsize okCall3Int.outSize :=
  claim_C9_band_lengths Int (fun _ => okCall3Int) 0 [1] none none none
    none [1] [2] [3] 0 rfl

/-- Claim C10: when `bollinger_bands` is called with
`moving_average_type = None`, the `ExponentialMovingAverage` type (C value
1) is passed to the C library as the default, not `SimpleMovingAverage`
(C value 0); and on failure its error message names "OBV" rather than
Bollinger Bands, while embedding the C return code. -/
theorem claim_C10_ema_default_obv_message :
    (∀ (α : Type) (cfn : BbandsArgs α → CCall3 α) (realDefault : α)
        (input : List α) (period : Option Nat) (up dn : Option α),
      bollinger_bands α cfn realDefault input period up dn none =
        bollinger_bands α cfn realDefault input period up dn
          (some .ExponentialMovingAverage)) ∧
    (maTypeValue .ExponentialMovingAverage = 1 ∧
      maTypeValue .SimpleMovingAverage = 0) ∧
    obvErrMsg = "Could not compute OBV; error: " ∧
    (∀ (α : Type) (cfn : BbandsArgs α → CCall3 α) (realDefault : α)
        (input : List α) (period : Option Nat) (up dn : Option α)
        (ma : Option MovingAverageType),
      0 < input.length →
      (cfn (bbandsArgs α realDefault input period up dn
        (maTypeValue (ma.getD .ExponentialMovingAverage)))).retCode ≠
        TA_SUCCESS →
      bollinger_bands α cfn realDefault input period up dn ma =
        .done (.error ⟨obvErrMsg ++
          formatRetCode (cfn (bbandsArgs α realDefault input period up dn
            (maTypeValue (ma.getD .ExponentialMovingAverage)))).retCode⟩)) := by
  refine ⟨fun α cfn realDefault input period up dn => rfl,
    ⟨rfl, rfl⟩, rfl, ?_⟩
  intro α cfn realDefault input period up dn ma h1 hrc
  unfold bollinger_bands
  rw [if_pos h1]
  exact marshalBB_err α _ _ _ _ _ hrc

/-- Witness for C10: a failing model C implementation (code 2, BAD_PARAM)
makes `bollinger_bands` return the OBV-labelled error embedding the
code. -/
theorem claim_C10_witness :
    bollinger_bands Int (fun _ => badCall3Int) 0 [1] none none none none =
      .done (.error ⟨obvErrMsg ++ formatRetCode badCall3Int.retCode⟩) :=
  claim_C10_ema_default_obv_message.2.2.2 Int (fun _ => badCall3Int) 0 [1]
    none none none none (by decide) (by decide)
